import Mathlib

/-!
Verification of the Telegram Instagram/YouTube downloader bot (`src/bot.py`)
against its natural-language specification.

We shallowly embed the pure decision logic of the bot: URL classification,
shortcode extraction, the Instagram and YouTube download orchestration
(exception mapping, size filtering, fallback selection), the retry decorator,
delivery planning, statistics bookkeeping, and terminal cleanup.  Interaction
with the outside world (what the network libraries, the subprocesses and the
filesystem return) is supplied via explicit environment records, and stateful
code is modelled by explicit state passing.

Strings are modelled as `List Char`; Python's `"x" in s` substring test and
the simple literal-prefix regexes of the source are modelled by the
executable `containsSub` / `searchCapture` functions below.  Byte sizes are
`Nat`; `st_size / (1024*1024) <= 49` is modelled exactly as
`sizeBytes <= 49 * 1024 * 1024`.
-/

/-- Boolean test that `pat` is a prefix of the second list (character lists). -/
def isPrefixOfL : List Char → List Char → Bool
  | [], _ => true
  | _ :: _, [] => false
  | a :: as, b :: bs => a == b && isPrefixOfL as bs

/-- Python's `pat in s` substring test on character lists; also the semantics
of `re.search` for the purely literal patterns used by
`URLDetector.detect_platform` (bot.py lines 546-567), whose only regex
metacharacter is an escaped dot. -/
def containsSub (pat : List Char) : List Char → Bool
  | [] => isPrefixOfL pat []
  | c :: t => isPrefixOfL pat (c :: t) || containsSub pat t

/-- If `pat` is a prefix of `s`, the remainder of `s` after it. -/
def dropAfter : List Char → List Char → Option (List Char)
  | [], s => some s
  | _ :: _, [] => none
  | a :: as, b :: bs => if a == b then dropAfter as bs else none

/-- Characters of the regex class `[A-Za-z0-9_-]` used by the shortcode
patterns of `InstagramManager._extract_shortcode` (bot.py lines 298-305). -/
def isShortcodeChar (c : Char) : Bool :=
  c.isAlpha || c.isDigit || c == '_' || c == '-'

/-- Match of `pat([A-Za-z0-9_-]+)` anchored at the start of `s`: the literal
prefix followed by a non-empty maximal (greedy) run of shortcode characters. -/
def captureAt (pat s : List Char) : Option (List Char) :=
  match dropAfter pat s with
  | none => none
  | some rest =>
    match rest.takeWhile isShortcodeChar with
    | [] => none
    | c :: cs => some (c :: cs)

/-- `re.search` semantics for the pattern `pat([A-Za-z0-9_-]+)`: the capture
group at the leftmost position where the whole pattern matches. -/
def searchCapture (pat : List Char) : List Char → Option (List Char)
  | [] => captureAt pat []
  | c :: t =>
    match captureAt pat (c :: t) with
    | some cap => some cap
    | none => searchCapture pat t

/-- Platform tags returned by `URLDetector.detect_platform`. -/
inductive Platform
  | instagram
  | youtube
deriving DecidableEq

/-- Instagram URL patterns of `detect_platform` (bot.py lines 546-553), in
source order; each is a literal substring once the escaped dot is read. -/
def ig_url_patterns : List (List Char) :=
  [ "instagram.com/p/".data
  , "instagram.com/reel".data
  , "instagram.com/reels".data
  , "instagram.com/tv/".data
  , "instagram.com/share/".data
  , "instagr.am/".data ]

/-- YouTube URL patterns of `detect_platform` (bot.py lines 559-564). -/
def yt_url_patterns : List (List Char) :=
  [ "youtube.com/watch".data
  , "youtu.be/".data
  , "youtube.com/shorts/".data
  , "youtube.com/live/".data ]

/-- `URLDetector.detect_platform` (bot.py lines 541-569): lowercase the URL,
return `instagram` if any Instagram pattern occurs in it, else `youtube` if
any YouTube pattern occurs, else `none`. -/
def detect_platform (url : List Char) : Option Platform :=
  let l := url.map Char.toLower
  if ig_url_patterns.any (fun p => containsSub p l) then some Platform.instagram
  else if yt_url_patterns.any (fun p => containsSub p l) then some Platform.youtube
  else none

/-- Shortcode patterns of `InstagramManager._extract_shortcode` (bot.py lines
298-305), each of the form `literal([A-Za-z0-9_-]+)`, in source order. -/
def shortcode_patterns : List (List Char) :=
  [ "instagram.com/p/".data
  , "instagram.com/reel/".data
  , "instagram.com/reels/".data
  , "instagram.com/tv/".data
  , "instagram.com/share/reel/".data
  , "instagram.com/share/p/".data ]

/-- First pattern (in order) whose `re.search` succeeds, and its capture. -/
def firstCapture : List (List Char) → List Char → Option (List Char)
  | [], _ => none
  | p :: ps, url =>
    match searchCapture p url with
    | some cap => some cap
    | none => firstCapture ps url

/-- `InstagramManager._extract_shortcode` (bot.py lines 297-310): try the six
patterns in order on the original URL (not lowercased) and return the first capture
group, or `none` when no pattern matches. -/
def extract_shortcode (url : List Char) : Option (List Char) :=
  firstCapture shortcode_patterns url

/-- Telegram transport cap used by the bot: `MAX_FILE_SIZE_MB = 49` (bot.py
line 66).  The float comparison `st_size / (1024*1024) <= 49` is modelled in
exact arithmetic as `sizeBytes <= 49 * 1024 * 1024`. -/
def MAX_FILE_SIZE_BYTES : Nat := 49 * 1024 * 1024

/-- A file on disk inside a job's working directory: name, `Path.suffix`
(with the leading dot), and byte size.  Every file a download produces lives
in the job's temp directory (bot.py lines 241-242, 258, 360-361, 370). -/
structure FileEntry where
  name : List Char
  ext : List Char
  sizeBytes : Nat
deriving DecidableEq

/-- Media extension filter of `download_from_url` (bot.py line 264):
`f.suffix.lower() in ['.jpg', '.jpeg', '.png', '.mp4', '.mov']`. -/
def isMediaExt (ext : List Char) : Bool :=
  let e := ext.map Char.toLower
  e == ".jpg".data || e == ".jpeg".data || e == ".png".data ||
    e == ".mp4".data || e == ".mov".data

/-- Exceptions the primary Instagram fetch can raise, mirroring the handlers
at bot.py lines 282-292: `ProfileNotExistsException`, `PostNotFoundException`,
`ConnectionException` (with its message), and any other exception. -/
inductive IgExc
  | profileNotExists
  | postNotFound
  | connection (msg : List Char)
  | other (msg : List Char)
deriving DecidableEq

/-- Result dictionary of `InstagramManager.download_from_url`: either
`{"success": True, "files", "compressed", "caption", "author"}` or
`{"success": False, "error", ("is_rate_limited")}`. -/
inductive IgResult
  | success (files : List FileEntry) (compressed : Option FileEntry)
      (caption : List Char) (author : List Char)
  | failure (error : List Char) (is_rate_limited : Bool)
deriving DecidableEq

/-- Environment of one Instagram download attempt: whether `self.L` was
initialized, what `Post.from_shortcode` + `download_post` + the directory
listing yield (a raised exception, or the files found in the job directory),
the size the zip archive would have, and the post's caption/author. -/
structure IgEnv where
  initialized : Bool
  fetch : Except IgExc (List FileEntry)
  zipSize : Nat
  caption : Option (List Char)
  author : List Char

/-- `InstagramManager._compress_files` (bot.py lines 312-329): zip the files
and return the archive path only if the archive is within the size cap;
the archive's actual size is supplied by the environment. -/
def compress_files (download_id : List Char) (zipSize : Nat) : Option FileEntry :=
  if zipSize ≤ MAX_FILE_SIZE_BYTES then
    some ⟨"archive_".data ++ download_id ++ ".zip".data, ".zip".data, zipSize⟩
  else none

/-- `InstagramManager.download_from_url` (bot.py lines 234-295).  A returned
dictionary is `Except.ok`; a re-raised exception (only the non-429
`ConnectionException`, line 289) is `Except.error` and is what the
`retry_on_error` decorator sees.  Branches in source order: uninitialized
guard (line 237), shortcode extraction (252-254), the fetch (257-259), file
collection filtered to media extensions within the size cap (262-267),
optional zip compression when more than one file (270-272), the success
dictionary with the caption truncated to 200 characters (274-280), and the
exception mapping (282-292). -/
def download_from_url (url download_id : List Char) (env : IgEnv) :
    Except IgExc IgResult :=
  if env.initialized = false then
    Except.ok (IgResult.failure "Instagram not initialized".data false)
  else
    match extract_shortcode url with
    | none => Except.ok (IgResult.failure "Invalid Instagram URL".data false)
    | some _ =>
      match env.fetch with
      | Except.ok dirFiles =>
        let files := dirFiles.filter
          (fun f => isMediaExt f.ext && decide (f.sizeBytes ≤ MAX_FILE_SIZE_BYTES))
        let compressed :=
          if files.length > 1 then compress_files download_id env.zipSize else none
        Except.ok (IgResult.success files compressed
          ((env.caption.getD []).take 200) env.author)
      | Except.error IgExc.profileNotExists =>
        Except.ok (IgResult.failure "Profile private or not found".data false)
      | Except.error IgExc.postNotFound =>
        Except.ok (IgResult.failure "Post not found or deleted".data false)
      | Except.error (IgExc.connection msg) =>
        if containsSub "429".data msg then
          Except.ok (IgResult.failure
            "Instagram rate limit (429). Wait 30-60 minutes.".data true)
        else Except.error (IgExc.connection msg)
      | Except.error (IgExc.other msg) =>
        Except.ok (IgResult.failure msg false)

/-- Extraction strategies for Instagram.  `instaloaderPrimary` is the single
strategy the code actually invokes (`Post.from_shortcode` + `download_post`,
bot.py lines 257-259); `fallbackDownloader` is the generic URL-based fallback
the spec posits — it names no code, because `src/bot.py` defines no fallback
extractor, so `attemptsOf` never emits it. -/
inductive Extractor
  | instaloaderPrimary
  | fallbackDownloader
deriving DecidableEq

/-- The extraction strategies `download_from_url` attempts, in order: the
instaloader fetch runs exactly when the manager is initialized and a
shortcode was extracted, and it is the only extraction call in the body. -/
def attemptsOf (url : List Char) (env : IgEnv) : List Extractor :=
  if env.initialized = false then []
  else
    match extract_shortcode url with
    | none => []
    | some _ => [Extractor.instaloaderPrimary]

/-- Outcome of one awaited subprocess: a wall-clock timeout, or an exit with
a return code and decoded stderr text. -/
inductive ProcOutcome
  | timeout
  | exited (returncode : Nat) (stderrText : List Char)
deriving DecidableEq

/-- Result dictionary of `YouTubeManager.download` / `_download_audio_only`:
`{"success": True, "file", ("is_audio", "note")}` or
`{"success": False, "error"}`.  The `title` / `size_mb` entries are derived
from the file and are omitted here. -/
inductive YtResult
  | success (file : FileEntry) (is_audio : Bool) (note : List Char)
  | failure (error : List Char)
deriving DecidableEq

/-- Environment of one YouTube download attempt: tool availability, the
primary yt-dlp subprocess outcome, the job-directory listing after the
primary attempt, the audio-only subprocess outcome, and the job-directory
listing after the audio attempt.  Both attempts share the same directory
(bot.py line 403 and 416 pass the primary's `temp_dir`), so
`filesAfterAudio` still contains whatever the primary attempt left there. -/
structure YtEnv where
  yt_dlp_available : Bool
  primaryProc : ProcOutcome
  filesAfterPrimary : List FileEntry
  audioProc : ProcOutcome
  filesAfterAudio : List FileEntry

/-- Python's `max(files, key=lambda x: x.stat().st_size)` (bot.py lines 411,
465): the first file of maximal size, `none` on an empty list. -/
def maxBySize : List FileEntry → Option FileEntry
  | [] => none
  | f :: fs =>
    some (fs.foldl (fun acc g => if g.sizeBytes > acc.sizeBytes then g else acc) f)

/-- `YouTubeManager._download_audio_only` (bot.py lines 431-476): run the
audio-only yt-dlp command into the same job directory; a timeout propagates
to the generic handler (line 475) as `"Audio fallback failed: "`; non-zero
exit fails; otherwise take the largest file in the directory and return it
with `is_audio=True` and the note `"Sent as audio (video too large)"`.
No size check is performed on the chosen file. -/
def download_audio_only (env : YtEnv) : YtResult :=
  match env.audioProc with
  | ProcOutcome.timeout => YtResult.failure "Audio fallback failed: ".data
  | ProcOutcome.exited rc _ =>
    if rc != 0 then YtResult.failure "Audio download also failed".data
    else
      match maxBySize env.filesAfterAudio with
      | none => YtResult.failure "No audio downloaded".data
      | some f => YtResult.success f true "Sent as audio (video too large)".data

/-- `YouTubeManager.download` (bot.py lines 354-429).  Branches in source
order: availability guard (357-358), timeout (395-397), non-zero exit — with
the audio-only fallback when the error text (or `"Unknown error"` if stderr
is empty) contains `"filesize"` case-insensitively (399-404) — empty
directory (407-409), the largest file in the directory (411), the size-cap
check that triggers the audio-only fallback (414-416), and the success
dictionary (418-423). -/
def yt_download (env : YtEnv) : YtResult :=
  if env.yt_dlp_available = false then
    YtResult.failure
      "YouTube downloader not available. Install yt-dlp: pip install yt-dlp".data
  else
    match env.primaryProc with
    | ProcOutcome.timeout => YtResult.failure "Download timeout (5 minutes)".data
    | ProcOutcome.exited rc err =>
      if rc != 0 then
        let error := if err.isEmpty then "Unknown error".data else err
        if containsSub "filesize".data (error.map Char.toLower) then
          download_audio_only env
        else YtResult.failure ("Download failed: ".data ++ error.take 200)
      else
        match maxBySize env.filesAfterPrimary with
        | none => YtResult.failure "No file downloaded".data
        | some f =>
          if f.sizeBytes > MAX_FILE_SIZE_BYTES then download_audio_only env
          else YtResult.success f false []

/-- `retry_on_error` loop body (bot.py lines 147-162) from a given attempt
index with `fuel` further attempts allowed: on a returned value stop; on a
raised exception sleep `delay * (attempt + 1)` and retry while fuel remains,
re-raising on the last attempt.  Returns the final result together with the
list of sleep durations performed. -/
def retryFrom {e a : Type} (f : Nat → Except e a) (delay : Nat) :
    Nat → Nat → Except e a × List Nat
  | attempt, 0 => (f attempt, [])
  | attempt, fuel + 1 =>
    match f attempt with
    | Except.ok v => (Except.ok v, [])
    | Except.error _ =>
      let r := retryFrom f delay (attempt + 1) fuel
      (r.1, delay * (attempt + 1) :: r.2)

/-- The `retry_on_error(max_retries, delay)` decorator (bot.py lines
147-162) applied to a per-attempt computation `f`: attempts start at 0 and
at most `maxRetries` run. -/
def retry_on_error {e a : Type} (maxRetries delay : Nat) (f : Nat → Except e a) :
    Except e a × List Nat :=
  retryFrom f delay 0 (maxRetries - 1)

/-- Per-user statistics record (`{"total": 0, "success": 0}`, bot.py 122). -/
structure UserStats where
  total : Nat
  success : Nat
deriving DecidableEq

/-- Persistent counters of `BotState.data` (bot.py lines 90-96):
`downloads_completed`, `downloads_failed` and the `user_stats` mapping,
modelled as an association list keyed by user id. -/
structure BotStateData where
  downloads_completed : Nat
  downloads_failed : Nat
  user_stats : List (Nat × UserStats)
deriving DecidableEq

/-- Dictionary lookup in `user_stats` with the default `{"total": 0,
"success": 0}` that `record_download` inserts for a missing key. -/
def getStat : List (Nat × UserStats) → Nat → UserStats
  | [], _ => ⟨0, 0⟩
  | (k, v) :: t, u => if k = u then v else getStat t u

/-- Dictionary write `user_stats[k] = v`: replace the binding if present,
append it otherwise. -/
def setStat : List (Nat × UserStats) → Nat → UserStats → List (Nat × UserStats)
  | [], k, v => [(k, v)]
  | (k', v') :: t, k, v =>
    if k' = k then (k, v) :: t else (k', v') :: setStat t k v

/-- `BotState.record_download` (bot.py lines 118-126): bump
`downloads_completed` on success and `downloads_failed` otherwise, create the
user's record if missing, bump the user's `total`, and bump the user's
`success` only on success. -/
def record_download (s : BotStateData) (user_id : Nat) (success : Bool) :
    BotStateData :=
  let completed := if success then s.downloads_completed + 1 else s.downloads_completed
  let failed := if success then s.downloads_failed else s.downloads_failed + 1
  let st := getStat s.user_stats user_id
  let st' : UserStats := ⟨st.total + 1, if success then st.success + 1 else st.success⟩
  ⟨completed, failed, setStat s.user_stats user_id st'⟩

/-- A sequence of `record_download` calls, from left to right. -/
def run_downloads (s : BotStateData) (ops : List (Nat × Bool)) : BotStateData :=
  ops.foldl (fun st p => record_download st p.1 p.2) s

/-- The reply `handle_url` sends when `detect_platform` returns `None`
(bot.py line 656). -/
def unsupported_reply : List Char :=
  "❌ Unsupported URL. Send Instagram or YouTube links only.".data

/-- Python's `platform.title()` on the two platform tags. -/
def platform_title : Platform → List Char
  | Platform.instagram => "Instagram".data
  | Platform.youtube => "Youtube".data

/-- The progress reply `handle_url` sends for a classified URL (line 663). -/
def processing_reply (p : Platform) : List Char :=
  "⏳ Detected *".data ++ platform_title p ++ "* link. Starting download...".data

/-- The first reply `handle_url` produces for an incoming text (bot.py lines
653-663): the unsupported-URL notice when classification fails, the progress
message otherwise.  In both cases exactly one reply is sent before any
download work. -/
def handle_url_initial_replies (text : List Char) : List (List Char) :=
  match detect_platform text with
  | none => [unsupported_reply]
  | some p => [processing_reply p]

/-- The failure message `handle_url` shows (bot.py lines 671-678):
`is_rate_limit = result.get("is_rate_limited") or "429" in error` selects the
rate-limit banner with its cooldown advice; otherwise a plain failure. -/
def failure_report (error : List Char) (is_rate_limited : Bool) : List Char :=
  if is_rate_limited || containsSub "429".data error then
    "⛔ *Rate Limited*\n\n".data ++ error ++ "\n\nTry again in 30-60 minutes.".data
  else
    "❌ *Download Failed*\n\n".data ++ error

/-- The media transport calls `handle_url` can make for one Instagram job
(bot.py lines 699-742). -/
inductive SendAction
  | sendDocument (archive : FileEntry)
  | sendPhoto (f : FileEntry)
  | sendVideo (f : FileEntry)
  | sendVideoCompressed (f : FileEntry) (newSize : Nat)
  | tooLargeNotice (f : FileEntry)
deriving DecidableEq

/-- Test `f.lower().endswith(('.jpg', '.jpeg', '.png'))` (bot.py line 716),
expressed on the file's suffix. -/
def isPhotoExt (ext : List Char) : Bool :=
  let e := ext.map Char.toLower
  e == ".jpg".data || e == ".jpeg".data || e == ".png".data

/-- Per-file send decision of the individual-send loop (bot.py lines
711-732): photos by extension are sent as photos; a video within the cap is
sent as video; an oversized video is compressed (`compressResult` gives the
compressed size, `none` on failure) and sent compressed only when the result
fits, otherwise a too-large notice is sent. -/
def send_one (compressResult : FileEntry → Option Nat) (f : FileEntry) :
    SendAction :=
  if isPhotoExt f.ext then
    SendAction.sendPhoto f
  else if f.sizeBytes > MAX_FILE_SIZE_BYTES then
    match compressResult f with
    | some cs =>
      if cs ≤ MAX_FILE_SIZE_BYTES then SendAction.sendVideoCompressed f cs
      else SendAction.tooLargeNotice f
    | none => SendAction.tooLargeNotice f
  else SendAction.sendVideo f

/-- Instagram delivery plan of `handle_url` (bot.py lines 699-711): when a
compressed archive exists and more than 3 files were extracted, the archive
alone is sent as a document; otherwise the first 10 files (`files[:10]`) are
sent individually. -/
def ig_media_sends (files : List FileEntry) (compressed : Option FileEntry)
    (compressResult : FileEntry → Option Nat) : List SendAction :=
  match compressed with
  | some z =>
    if files.length > 3 then [SendAction.sendDocument z]
    else (files.take 10).map (send_one compressResult)
  | none => (files.take 10).map (send_one compressResult)

/-- How one `handle_url` invocation terminates (bot.py lines 671-795):
`failed` — the download result had `success=False` and the handler returned
at line 681; `raised` — an exception reached the handler's `except` at line
792; `delivered` — the success path ran to the cleanup block at lines
776-790 with the accumulated `files_to_cleanup` list. -/
inductive JobOutcome
  | failed
  | raised
  | delivered (cleanup : List FileEntry)

/-- The directories `handle_url` removes for a job ending as `o` (bot.py
lines 776-790): only the success path removes anything, namely the parent
directories of the cleanup files.  Every cleanup file lives in the job's
working directory (the download managers write all files there, and the
compressed derivatives are created next to their sources), so the removed
set is the job directory exactly when the cleanup list is non-empty. -/
def dirs_removed (jobDir : List Char) : JobOutcome → List (List Char)
  | JobOutcome.failed => []
  | JobOutcome.raised => []
  | JobOutcome.delivered cleanup => if cleanup.isEmpty then [] else [jobDir]

/-- Directories still on disk after the job terminates, out of those in
`fs` beforehand. -/
def fs_after (fs : List (List Char)) (jobDir : List Char) (o : JobOutcome) :
    List (List Char) :=
  fs.filter (fun d => decide (¬ d ∈ dirs_removed jobDir o))

/-- A well-formed Instagram post URL, shortcode `ABC123`. -/
def urlP1 : List Char := "https://instagram.com/p/ABC123/".data

/-- A short-host Instagram URL: classified as Instagram, but no shortcode
pattern matches it. -/
def url_instagr_am : List Char := "https://instagr.am/abc123".data

/-- An `instagram.com/share/` URL that is neither `share/reel` nor
`share/p`: classified as Instagram, but no shortcode pattern matches it. -/
def url_share_other : List Char := "https://instagram.com/share/xyz/".data

/-- A download id as built at bot.py line 650. -/
def id1 : List Char := "7_1700000000_1234".data

/-- A media file larger than the transport cap. -/
def bigJpg : FileEntry := ⟨"ABC123_1.jpg".data, ".jpg".data, 60000000⟩

/-- A small media file within the transport cap. -/
def goodJpg : FileEntry := ⟨"ABC123_1.jpg".data, ".jpg".data, 2000000⟩

/-- Environment where the fetch succeeds but the only file on disk exceeds
the size cap, so the collected file list is empty. -/
def envOversized : IgEnv := ⟨true, Except.ok [bigJpg], 0, none, "someuser".data⟩

/-- Environment where the fetch succeeds with one small media file. -/
def envGood : IgEnv := ⟨true, Except.ok [goodJpg], 0, none, "someuser".data⟩

/-- A `ConnectionException` message carrying the rate-limit signal. -/
def msg429 : List Char := "HTTP error 429 Too Many Requests".data

/-- Environment where the primary fetch raises a 429 connection error. -/
def env429 : IgEnv := ⟨true, Except.error (IgExc.connection msg429), 0, none, "someuser".data⟩

/-- A downloaded video slightly above the 49 MB cap (yt-dlp's own
`--max-filesize 50M` still admits it). -/
def videoBig : FileEntry := ⟨"My Video.mp4".data, ".mp4".data, 52000000⟩

/-- The audio file the fallback adds to the same job directory. -/
def audioSmall : FileEntry := ⟨"audio_My Video.mp3".data, ".mp3".data, 5000000⟩

/-- YouTube environment: the primary download exits 0 leaving an oversized
video, and the audio fallback exits 0 after adding a small audio file to the
same directory. -/
def envYtOversize : YtEnv :=
  ⟨true, ProcOutcome.exited 0 [], [videoBig], ProcOutcome.exited 0 [],
    [videoBig, audioSmall]⟩

/-- A job working directory under the temp root (bot.py lines 360, 241). -/
def jobDir0 : List Char := "/tmp/telegram_downloader/yt_7_1700000000".data

/-- A small photo used for delivery-plan witnesses. -/
def fJpg : FileEntry := ⟨"p1.jpg".data, ".jpg".data, 1000⟩

/-- A zip archive entry used for delivery-plan witnesses. -/
def zipArch : FileEntry := ⟨"archive_x.zip".data, ".zip".data, 4000⟩

/-- The audio-only fallback result always carries `is_audio = True` when it
succeeds, so it never equals a non-audio success. -/
theorem download_audio_only_is_audio (env : YtEnv) (f : FileEntry) (note : List Char) :
    download_audio_only env ≠ YtResult.success f false note := by
  unfold download_audio_only
  split
  · simp
  · split
    · simp
    · split <;> simp

/-- Claim C1, counterexample: an Instagram extraction can return a `Success`
outcome carrying zero media items.  When the only file the fetch produced
exceeds the 49 MB cap, the size filter empties the list, yet
`download_from_url` still returns `success=True` with `files=[]`, refuting
"the outcome carries at least one media item". -/
theorem instagram_success_can_be_empty :
    download_from_url urlP1 id1 envOversized =
      Except.ok (IgResult.success [] none [] "someuser".data) := rfl

/-- Claim C1 (amended): every media item carried by an Instagram `Success`
has a recognized media extension and byte size at most the 49 MB transport
cap, and the file carried by a plain (non-audio) YouTube `Success` is within
the cap; both bounds are enforced before the outcome is returned.  (An
Instagram `Success` may carry zero items, and the audio-fallback `Success`
carries no size guarantee — see the counterexamples for this claim and C5.) -/
theorem success_size_bound :
    (∀ url download_id env files compressed caption author,
      download_from_url url download_id env =
        Except.ok (IgResult.success files compressed caption author) →
      ∀ f ∈ files, isMediaExt f.ext = true ∧ f.sizeBytes ≤ MAX_FILE_SIZE_BYTES) ∧
    (∀ env f note, yt_download env = YtResult.success f false note →
      f.sizeBytes ≤ MAX_FILE_SIZE_BYTES) := by
  constructor
  · intro url download_id env files compressed caption author h f hf
    unfold download_from_url at h
    split at h
    · simp at h
    · split at h
      · simp at h
      · split at h
        · simp only [Except.ok.injEq, IgResult.success.injEq] at h
          obtain ⟨hfiles, -⟩ := h
          rw [← hfiles] at hf
          have hp := (List.mem_filter.mp hf).2
          simp only [Bool.and_eq_true, decide_eq_true_eq] at hp
          exact hp
        · simp at h
        · simp at h
        · split at h <;> simp at h
        · simp at h
  · intro env f note h
    unfold yt_download at h
    split at h
    · simp at h
    · split at h
      · simp at h
      · split at h
        · split at h <;> (dsimp only at h; split at h) <;>
            first
            | exact absurd h (download_audio_only_is_audio env f note)
            | simp at h
        · split at h
          · simp at h
          · split at h
            · exact absurd h (download_audio_only_is_audio env f note)
            · simp only [YtResult.success.injEq] at h
              obtain ⟨hfe, -, -⟩ := h
              subst hfe
              omega

/-- Witness for the amended claim C1: a concrete successful Instagram
download whose delivered item satisfies the media-extension and size bound. -/
theorem success_size_bound_witness :
    isMediaExt goodJpg.ext = true ∧ goodJpg.sizeBytes ≤ MAX_FILE_SIZE_BYTES :=
  success_size_bound.1 urlP1 id1 envGood [goodJpg] none [] "someuser".data rfl
    goodJpg (by simp)

/-- Claim C2, counterexample: a job that terminates with a `Failure` outcome
leaves its working directory on disk — `handle_url` returns at line 681
without running any directory cleanup, refuting "after the job reaches its
terminal state the job's working directory no longer exists". -/
theorem failed_job_dir_persists :
    jobDir0 ∈ fs_after [jobDir0] jobDir0 JobOutcome.failed := by decide

/-- Claim C2 (amended): the job's working directory is removed immediately
only on the success path, and only when at least one file was collected for
cleanup; on a `Failure` outcome or an exception raised mid-job the handler
returns without touching the directory, which persists until a later sweep
(startup cleanup or the manual `/clean` command). -/
theorem cleanup_only_on_success :
    (∀ fs jobDir cleanup, cleanup ≠ [] →
      ¬ jobDir ∈ fs_after fs jobDir (JobOutcome.delivered cleanup)) ∧
    (∀ fs jobDir, fs_after fs jobDir JobOutcome.failed = fs ∧
      fs_after fs jobDir JobOutcome.raised = fs) := by
  constructor
  · intro fs jobDir cleanup hne hmem
    have h2 := (List.mem_filter.mp hmem).2
    simp only [decide_eq_true_eq] at h2
    apply h2
    cases cleanup with
    | nil => exact absurd rfl hne
    | cons a t => simp [dirs_removed]
  · intro fs jobDir
    constructor <;>
      exact List.filter_eq_self.mpr (fun d _ => by simp [dirs_removed])

/-- Witness for the amended claim C2: a concrete successful job with one
cleanup file has its working directory removed. -/
theorem cleanup_only_on_success_witness :
    ¬ jobDir0 ∈ fs_after [jobDir0] jobDir0 (JobOutcome.delivered [goodJpg]) :=
  cleanup_only_on_success.1 [jobDir0] jobDir0 [goodJpg] (by simp)

/-- Claim C3, counterexample: on a primary-extractor connection failure whose
message contains the transient-signal token "429", `download_from_url`
returns a failure directly; the only extraction strategy attempted is the
instaloader primary, and no fallback extractor is attempted (none exists in
the code), refuting "the system attempts the fallback extractor before
returning a failure". -/
theorem no_fallback_on_429 :
    containsSub "429".data msg429 = true ∧
    download_from_url urlP1 id1 env429 =
      Except.ok (IgResult.failure
        "Instagram rate limit (429). Wait 30-60 minutes.".data true) ∧
    attemptsOf urlP1 env429 = [Extractor.instaloaderPrimary] ∧
    ¬ Extractor.fallbackDownloader ∈ attemptsOf urlP1 env429 :=
  ⟨rfl, rfl, rfl, by decide⟩

/-- Claim C3 (amended): on a primary 429 connection failure the extraction
returns the retryable rate-limited failure directly, attempting only the
instaloader primary and never any fallback extractor; on a private-profile
failure (`ProfileNotExistsException`) it returns the private/not-found
failure directly, likewise without any fallback attempt. -/
theorem ig_failure_paths_no_fallback :
    (∀ url download_id env msg sc, env.initialized = true →
      extract_shortcode url = some sc →
      env.fetch = Except.error (IgExc.connection msg) →
      containsSub "429".data msg = true →
      download_from_url url download_id env =
        Except.ok (IgResult.failure
          "Instagram rate limit (429). Wait 30-60 minutes.".data true) ∧
      attemptsOf url env = [Extractor.instaloaderPrimary]) ∧
    (∀ url download_id env sc, env.initialized = true →
      extract_shortcode url = some sc →
      env.fetch = Except.error IgExc.profileNotExists →
      download_from_url url download_id env =
        Except.ok (IgResult.failure "Profile private or not found".data false) ∧
      attemptsOf url env = [Extractor.instaloaderPrimary]) := by
  constructor
  · intro url download_id env msg sc h1 h2 h3 h4
    constructor
    · simp [download_from_url, h1, h2, h3, h4]
    · simp [attemptsOf, h1, h2]
  · intro url download_id env sc h1 h2 h3
    constructor
    · simp [download_from_url, h1, h2, h3]
    · simp [attemptsOf, h1, h2]

/-- Witness for the amended claim C3: the concrete 429 environment takes the
rate-limited direct-failure path with only the primary attempted. -/
theorem ig_failure_paths_no_fallback_witness :
    download_from_url urlP1 id1 env429 =
      Except.ok (IgResult.failure
        "Instagram rate limit (429). Wait 30-60 minutes.".data true) ∧
    attemptsOf urlP1 env429 = [Extractor.instaloaderPrimary] :=
  ig_failure_paths_no_fallback.1 urlP1 id1 env429 msg429 "ABC123".data rfl rfl rfl rfl

/-- Claim C4, counterexample: for a free-text message matching neither
platform's pattern set, classification returns `None` but the bot does reply
— with the unsupported-URL notice (bot.py line 656) — refuting "the bot
produces no reply at all". -/
theorem unclassified_text_gets_reply :
    detect_platform "hello there".data = none ∧
    handle_url_initial_replies "hello there".data = [unsupported_reply] ∧
    [unsupported_reply] ≠ ([] : List (List Char)) :=
  ⟨rfl, rfl, by simp⟩

/-- Claim C4 (amended): for every incoming text whose URL matches neither
platform's pattern set, classification returns `None` and the bot replies
with exactly one unsupported-URL notice (it does not stay silent, and no
download is started). -/
theorem unclassified_reply_spec :
    ∀ text, detect_platform text = none →
      handle_url_initial_replies text = [unsupported_reply] := by
  intro t h
  simp [handle_url_initial_replies, h]

/-- Witness for the amended claim C4 at a concrete unclassified text. -/
theorem unclassified_reply_spec_witness :
    handle_url_initial_replies "good morning".data = [unsupported_reply] :=
  unclassified_reply_spec "good morning".data rfl

/-- Claim C5 (code bug), evaluation at the failing input: when the primary
download succeeds but its largest file exceeds the cap, the audio-only
fallback runs in the same directory — and then picks the largest file of
that directory, which is the oversized video itself.  The outcome is the
52 MB video tagged `is_audio=True` with the note "Sent as audio (video too
large)", contradicting both the claim and the code's own note. -/
theorem audio_fallback_returns_oversized_video :
    yt_download envYtOversize =
      YtResult.success videoBig true "Sent as audio (video too large)".data ∧
    MAX_FILE_SIZE_BYTES < videoBig.sizeBytes :=
  ⟨rfl, by decide⟩

/-- Claim C6: the `retry_on_error` decorator (instantiated with
`max_retries=2, delay=3` on both download methods; module default
`MAX_RETRIES=3`) retries whole attempts at most `max_retries` times with
linearly increasing backoff `delay * (attempt + 1)` between attempts; an
attempt that returns an outcome dictionary — in particular the NotFound and
Private failures — is returned immediately and never retried; and the only
value `download_from_url` can raise to the wrapper (the only thing that is
ever retried) is a non-429 `ConnectionException`, a transient network
exception. -/
theorem retry_policy :
    (∀ (maxRetries delay : Nat) (f : Nat → Except IgExc IgResult) (r : IgResult),
      f 0 = Except.ok r → retry_on_error maxRetries delay f = (Except.ok r, [])) ∧
    (∀ (delay : Nat) (f : Nat → Except IgExc IgResult),
      (retry_on_error 2 delay f).2 = [] ∨
      (retry_on_error 2 delay f).2 = [delay * 1]) ∧
    (∀ (delay : Nat) (f : Nat → Except IgExc IgResult),
      (retry_on_error 3 delay f).2 = [] ∨
      (retry_on_error 3 delay f).2 = [delay * 1] ∨
      (retry_on_error 3 delay f).2 = [delay * 1, delay * 2]) ∧
    (∀ url download_id env,
      (env.fetch = Except.error IgExc.profileNotExists ∨
       env.fetch = Except.error IgExc.postNotFound) →
      retry_on_error 2 3 (fun _ => download_from_url url download_id env) =
        (download_from_url url download_id env, [])) ∧
    (∀ url download_id env ex,
      download_from_url url download_id env = Except.error ex →
      ∃ msg, ex = IgExc.connection msg ∧ containsSub "429".data msg = false) := by
  have p1 : ∀ (maxRetries delay : Nat) (f : Nat → Except IgExc IgResult)
      (r : IgResult), f 0 = Except.ok r →
      retry_on_error maxRetries delay f = (Except.ok r, []) := by
    intro m d f r h
    unfold retry_on_error
    cases hm : m - 1 with
    | zero => simp [retryFrom, h]
    | succ n => simp [retryFrom, h]
  refine ⟨p1, ?_, ?_, ?_, ?_⟩
  · intro d f
    show (retryFrom f d 0 1).2 = [] ∨ (retryFrom f d 0 1).2 = [d * 1]
    cases hf : f 0 with
    | ok v => left; simp [retryFrom, hf]
    | error ex => right; simp [retryFrom, hf]
  · intro d f
    show (retryFrom f d 0 2).2 = [] ∨ (retryFrom f d 0 2).2 = [d * 1] ∨
      (retryFrom f d 0 2).2 = [d * 1, d * 2]
    cases hf : f 0 with
    | ok v => left; simp [retryFrom, hf]
    | error ex =>
      cases hf1 : f 1 with
      | ok v => right; left; simp [retryFrom, hf, hf1]
      | error ex1 => right; right; simp [retryFrom, hf, hf1]
  · intro url download_id env h
    have hok : ∃ r, download_from_url url download_id env = Except.ok r := by
      unfold download_from_url
      split
      · exact ⟨_, rfl⟩
      · split
        · exact ⟨_, rfl⟩
        · rcases h with h | h <;> rw [h] <;> exact ⟨_, rfl⟩
    obtain ⟨r, hr⟩ := hok
    rw [hr]
    exact p1 2 3 _ r rfl
  · intro url download_id env ex h
    unfold download_from_url at h
    split at h
    · simp at h
    · split at h
      · simp at h
      · split at h
        · simp at h
        · simp at h
        · simp at h
        · split at h
          · simp at h
          · simp only [Except.error.injEq, IgExc.connection.injEq] at h
            rename_i msg heqf hcond
            exact ⟨msg, h.symm, by simpa using hcond⟩
        · simp at h

/-- Witness for claim C6: an attempt that returns the Private failure
dictionary on the first try is returned as-is, with no retry and no sleep. -/
theorem retry_policy_witness :
    retry_on_error 2 3 (fun _ =>
        (Except.ok (IgResult.failure "Profile private or not found".data false) :
          Except IgExc IgResult)) =
      (Except.ok (IgResult.failure "Profile private or not found".data false), []) :=
  retry_policy.1 2 3 _ _ rfl

/-- Claim C7: an Instagram primary connection error whose message contains
"429" yields the rate-limited failure with `is_rate_limited=True` (the
retryable marker the handler keys on), whose text suggests waiting 30-60
minutes, and the user-facing report built by `handle_url` for this failure
also contains the explicit 30-60 minutes cooldown advice. -/
theorem rate_limit_report :
    ∀ url download_id env msg sc, env.initialized = true →
      extract_shortcode url = some sc →
      env.fetch = Except.error (IgExc.connection msg) →
      containsSub "429".data msg = true →
      download_from_url url download_id env =
        Except.ok (IgResult.failure
          "Instagram rate limit (429). Wait 30-60 minutes.".data true) ∧
      containsSub "30-60 minutes".data
        "Instagram rate limit (429). Wait 30-60 minutes.".data = true ∧
      containsSub "30-60 minutes".data
        (failure_report
          "Instagram rate limit (429). Wait 30-60 minutes.".data true) = true := by
  intro url download_id env msg sc h1 h2 h3 h4
  refine ⟨?_, by decide, by decide⟩
  simp [download_from_url, h1, h2, h3, h4]

/-- Witness for claim C7 at the concrete 429 environment. -/
theorem rate_limit_report_witness :
    download_from_url urlP1 id1 env429 =
      Except.ok (IgResult.failure
        "Instagram rate limit (429). Wait 30-60 minutes.".data true) ∧
    containsSub "30-60 minutes".data
      "Instagram rate limit (429). Wait 30-60 minutes.".data = true ∧
    containsSub "30-60 minutes".data
      (failure_report
        "Instagram rate limit (429). Wait 30-60 minutes.".data true) = true :=
  rate_limit_report urlP1 id1 env429 msg429 "ABC123".data rfl rfl rfl rfl

/-- Reading back the key just written into the `user_stats` dictionary. -/
theorem getStat_setStat_self (l : List (Nat × UserStats)) (k : Nat) (v : UserStats) :
    getStat (setStat l k v) k = v := by
  induction l with
  | nil => simp [setStat, getStat]
  | cons p t ih =>
    obtain ⟨k', v'⟩ := p
    by_cases h : k' = k <;> simp [setStat, getStat, h, ih]

/-- Writing one key leaves every other key's entry unchanged. -/
theorem getStat_setStat_ne (l : List (Nat × UserStats)) (k u : Nat) (v : UserStats)
    (h : u ≠ k) : getStat (setStat l k v) u = getStat l u := by
  induction l with
  | nil =>
    simp only [setStat, getStat]
    rw [if_neg (fun hh => h hh.symm)]
  | cons p t ih =>
    obtain ⟨k', v'⟩ := p
    by_cases hk : k' = k
    · subst hk
      simp only [setStat, if_pos rfl, getStat]
      rw [if_neg (fun hh => h hh.symm), if_neg (fun hh => h hh.symm)]
    · simp only [setStat, if_neg hk, getStat]
      rw [ih]

/-- Claim C8: each `record_download` call bumps exactly one of the two global
counters by one (completed on success, failed otherwise), bumps the calling
user's `total` by one, bumps the user's `success` only on success, leaves
every other user's entry unchanged — and therefore `success <= total` holds
for every user after any sequence of `record_download` calls from a state
satisfying it. -/
theorem record_download_spec :
    (∀ s user_id success,
      (record_download s user_id success).downloads_completed =
        s.downloads_completed + (if success then 1 else 0) ∧
      (record_download s user_id success).downloads_failed =
        s.downloads_failed + (if success then 0 else 1) ∧
      (getStat (record_download s user_id success).user_stats user_id).total =
        (getStat s.user_stats user_id).total + 1 ∧
      (getStat (record_download s user_id success).user_stats user_id).success =
        (getStat s.user_stats user_id).success + (if success then 1 else 0) ∧
      (∀ u, u ≠ user_id →
        getStat (record_download s user_id success).user_stats u =
          getStat s.user_stats u)) ∧
    (∀ ops s,
      (∀ u, (getStat s.user_stats u).success ≤ (getStat s.user_stats u).total) →
      ∀ u, (getStat (run_downloads s ops).user_stats u).success ≤
        (getStat (run_downloads s ops).user_stats u).total) := by
  constructor
  · intro s user_id success
    refine ⟨?_, ?_, ?_, ?_, ?_⟩
    · cases success <;> simp [record_download]
    · cases success <;> simp [record_download]
    · simp [record_download, getStat_setStat_self]
    · cases success <;> simp [record_download, getStat_setStat_self]
    · intro u hu
      simp [record_download, getStat_setStat_ne _ _ _ _ hu]
  · intro ops
    induction ops with
    | nil => intro s h u; simpa [run_downloads] using h u
    | cons p t ih =>
      intro s h u
      have hrun : run_downloads s (p :: t) =
          run_downloads (record_download s p.1 p.2) t := rfl
      rw [hrun]
      refine ih (record_download s p.1 p.2) ?_ u
      intro w
      by_cases hw : w = p.1
      · subst hw
        have hh := h p.1
        cases hb : p.2 <;>
          simp [record_download, getStat_setStat_self, hb] <;> omega
      · simpa [record_download, getStat_setStat_ne _ _ _ _ hw] using h w

/-- Witness for claim C8: after two successes and one failure for user 5
starting from the fresh state, the user's invariant holds. -/
theorem record_download_spec_witness :
    (getStat (run_downloads ⟨0, 0, []⟩ [(5, true), (5, true), (5, false)]).user_stats 5).success ≤
      (getStat (run_downloads ⟨0, 0, []⟩ [(5, true), (5, true), (5, false)]).user_stats 5).total :=
  record_download_spec.2 [(5, true), (5, true), (5, false)] ⟨0, 0, []⟩
    (fun u => by simp [getStat]) 5

/-- Claim C9: classification as Instagram does not guarantee an extractable
shortcode.  Both a bare `instagr.am/` URL and an `instagram.com/share/` path
other than `share/reel` or `share/p` are classified `instagram`, yet
`_extract_shortcode` returns `None`, so `download_from_url` returns the
"Invalid Instagram URL" failure without attempting any download. -/
theorem ig_detected_but_unparsable :
    detect_platform url_instagr_am = some Platform.instagram ∧
    extract_shortcode url_instagr_am = none ∧
    detect_platform url_share_other = some Platform.instagram ∧
    extract_shortcode url_share_other = none ∧
    (∀ download_id env, env.initialized = true →
      download_from_url url_instagr_am download_id env =
        Except.ok (IgResult.failure "Invalid Instagram URL".data false) ∧
      attemptsOf url_instagr_am env = []) := by
  refine ⟨rfl, rfl, rfl, rfl, ?_⟩
  intro download_id env h
  have hsc : extract_shortcode url_instagr_am = none := rfl
  constructor
  · simp [download_from_url, h, hsc]
  · simp [attemptsOf, h, hsc]

/-- Witness for claim C9 at a concrete initialized environment. -/
theorem ig_detected_but_unparsable_witness :
    download_from_url url_instagr_am id1 ⟨true, Except.ok [], 0, none, []⟩ =
      Except.ok (IgResult.failure "Invalid Instagram URL".data false) ∧
    attemptsOf url_instagr_am ⟨true, Except.ok [], 0, none, []⟩ = [] :=
  ig_detected_but_unparsable.2.2.2.2 id1 ⟨true, Except.ok [], 0, none, []⟩ rfl

/-- Claim C10: for a successful Instagram job, when a compressed archive
exists and more than 3 files were extracted, the archive alone is sent as a
document; otherwise the files are sent individually, and exactly
`min 10 files.length` individual sends occur — at most 10 even when the
extraction produced more. -/
theorem archive_or_individual :
    ∀ files compressed compressResult,
      (∀ z, compressed = some z → 3 < files.length →
        ig_media_sends files compressed compressResult =
          [SendAction.sendDocument z]) ∧
      ((compressed = none ∨ files.length ≤ 3) →
        (ig_media_sends files compressed compressResult).length =
          min 10 files.length) ∧
      (ig_media_sends files compressed compressResult).length ≤ 10 := by
  intro files compressed cr
  refine ⟨?_, ?_, ?_⟩
  · intro z hz h3
    subst hz
    simp [ig_media_sends, h3]
  · intro h
    rcases h with h | h
    · subst h
      simp [ig_media_sends]
    · cases compressed with
      | none => simp [ig_media_sends]
      | some z =>
        have h3 : ¬ 3 < files.length := by omega
        simp [ig_media_sends, h3]
  · cases compressed with
    | none => simp [ig_media_sends]
    | some z =>
      by_cases h3 : 3 < files.length
      · simp [ig_media_sends, h3]
      · simp [ig_media_sends, h3]

/-- Witness for claim C10: with an archive present and 4 extracted files,
the plan is the single document send of the archive. -/
theorem archive_or_individual_witness :
    ig_media_sends [fJpg, fJpg, fJpg, fJpg] (some zipArch) (fun _ => none) =
      [SendAction.sendDocument zipArch] :=
  (archive_or_individual [fJpg, fJpg, fJpg, fJpg] (some zipArch) (fun _ => none)).1
    zipArch rfl (by decide)
